import Mathlib

/-!
Verification of the dynamic module cache, dispatch protocol and path guard
of the Flask webserver (`src/webserver/app.py`) against its specification.

Paths are modelled as lists of components of an absolute path (the leading
separator is implicit).  `os.path.abspath` is modelled by `normalize`
(resolution of `.`, `..` and empty components), `os.path.commonpath` by
`commonPath` (longest common component run), and the filesystem by a finite
association list from normalized paths to file metadata.
-/

namespace Etienne

/-- A filesystem path, as the list of components of its absolute form. -/
abbrev PathT := List String

/-- Model of `os.path.abspath`/`normpath` on an absolute path: drops empty and `.`
components and resolves `..` against the accumulated prefix (at the
filesystem root, `..` stays at the root, as `normpath` does). -/
def normalize (p : PathT) : PathT :=
  p.foldl
    (fun acc c =>
      if c = "" then acc
      else if c = "." then acc
      else if c = ".." then acc.dropLast
      else acc ++ [c])
    []

/-- Model of `os.path.commonpath` on two absolute paths: the longest run of equal
leading components. -/
def commonPath : PathT → PathT → PathT
  | a :: as, b :: bs => if a = b then a :: commonPath as bs else []
  | _, _ => []

/-- The function `_ensure_in_dir(root, path)` from `app.py`: resolve both arguments with
`os.path.abspath` and accept exactly when `os.path.commonpath` of the two
equals the resolved root; on failure the server aborts with 403. -/
def ensure_in_dir (root path : PathT) : Bool :=
  commonPath (normalize root) (normalize path) == normalize root

/-- Split a character list at `/` separators. -/
def splitComponentsAux : List Char → List Char → List String
  | [], acc => [String.mk acc.reverse]
  | c :: cs, acc =>
      if c = '/' then String.mk acc.reverse :: splitComponentsAux cs []
      else splitComponentsAux cs (c :: acc)

/-- Model of `os.path.join` of a base path with a caller-supplied string: the string
contributes one component per `/`-separated piece (empty pieces are later
dropped by `normalize`, as `normpath` drops them). -/
def splitComponents (s : String) : List String :=
  splitComponentsAux s.data []

/-- Model of `str.lower()` on an HTTP verb (ASCII). -/
def lowerString (s : String) : String :=
  String.mk (s.data.map Char.toLower)

/-- The workspace base directory (`WORKSPACE` in `app.py`), abstract root. -/
def WORKSPACE : PathT := ["workspace"]

/-- The function `project_root(project)` from `app.py`. -/
def project_root (project : String) : PathT :=
  WORKSPACE ++ splitComponents project

/-- The function `api_dir(project)` from `app.py`. -/
def api_dir (project : String) : PathT :=
  project_root project ++ ["api"]

/-- The function `api_file_path(project, module_name)` from `app.py`. -/
def api_file_path (project module_name : String) : PathT :=
  api_dir project ++ [module_name ++ ".py"]

/-- The request context Flask hands to a handler (`request`): the HTTP verb
(upper-case, e.g. `"GET"`) and an opaque body. -/
structure Request where
  method : String
  body : String
deriving Repr, DecidableEq

/-- A callable attribute of a loaded module.  `noArg` models a function whose
`__code__.co_argcount` is `0`; `withReq` one that takes the request.  A raised
exception is modelled as `Except.error` carrying `str(e)`; the returned value
is kept opaque as a `String`. -/
inductive HandlerFunc where
  | noArg (ret : Except String String)
  | withReq (f : Request → Except String String)

/-- The value `func.__code__.co_argcount` of a callable attribute. -/
def HandlerFunc.argcount : HandlerFunc → Nat
  | .noArg _ => 0
  | .withReq _ => 1

/-- The dispatcher's call of a verb-named function, from `dynamic_api`:
`func()` when `co_argcount == 0`, else `func(request)`. -/
def HandlerFunc.call (f : HandlerFunc) (req : Request) : Except String String :=
  match f with
  | .noArg ret => ret
  | .withReq g => g req

/-- The callable surface of one handler source file: its verb-named callable
attributes (`get`, `post`, ...), its optional `handle` attribute, and its
optional `SUPPORTED_METHODS` attribute. -/
structure ModuleSource where
  verbs : List (String × HandlerFunc)
  handle? : Option (Request → Except String String)
  supported_methods? : Option (List String)

/-- Metadata of one file on disk: its `os.path.getmtime` value and, for a
handler source file, the callable surface obtained by executing it. -/
structure FileInfo where
  mtime : Nat
  src : ModuleSource

/-- The filesystem: a finite association of normalized absolute paths to
file metadata. -/
structure FS where
  files : List (PathT × FileInfo)

/-- Association-list lookup (first binding wins), used for the filesystem,
the module registry and a module's callable attributes. -/
def alookup {α β : Type} [BEq α] : List (α × β) → α → Option β
  | [], _ => none
  | (k, v) :: rest, key => if k == key then some v else alookup rest key

/-- File metadata at a path, resolving the path first (`os.path` calls
operate on the real tree, so lookups go through `normalize`). -/
def FS.info? (fs : FS) (p : PathT) : Option FileInfo :=
  alookup fs.files (normalize p)

/-- Model of `os.path.isfile`. -/
def FS.isfile (fs : FS) (p : PathT) : Bool :=
  (fs.info? p).isSome

/-- Model of `os.path.getmtime` (defaulting to `0` on a missing file; `load_module`
only reads it after a successful `isfile` check). -/
def FS.getmtime (fs : FS) (p : PathT) : Nat :=
  ((fs.info? p).map FileInfo.mtime).getD 0

/-- A Python module object produced by `_import_module`: a fresh identity
(`id`, distinguishing module objects by reference), the unique module name
`dyn_{project}_{module_name}_{mtime}` and the executed source's surface. -/
structure LoadedModule where
  id : Nat
  uname : String
  src : ModuleSource

/-- One value of the `loaded_modules` registry:
`{"module": mod, "mtime": mtime, "path": path}`. -/
structure CacheEntry where
  module : LoadedModule
  mtime : Nat
  path : PathT

/-- The server's mutable state: the `loaded_modules` registry keyed by
`(project, module_name)`, plus a counter supplying fresh module identities. -/
structure ServerState where
  loaded_modules : List ((String × String) × CacheEntry)
  nextId : Nat

/-- Association-list update, modelling `loaded_modules[key] = entry`. -/
def aupdate {α β : Type} [BEq α] : List (α × β) → α → β → List (α × β)
  | [], key, v => [(key, v)]
  | (k, w) :: rest, key, v =>
      if k == key then (key, v) :: rest else (k, w) :: aupdate rest key v

/-- A `flask.abort(status, description=...)` outcome. -/
structure AbortE where
  status : Nat
  description : String
deriving Repr, DecidableEq

/-- Observable filesystem / handler side effects, in program order. -/
inductive FsEvent where
  | isfileCheck (p : PathT)
  | guardCheck (root p : PathT)
  | readMtime (p : PathT)
  | importModule (p : PathT)
  | invokeHandler (entry : String)
deriving Repr, DecidableEq

/-- The function `load_module(project, module_name)` from `app.py`, with an event trace
recording each filesystem access in source order:
existence check, then `_ensure_in_dir`, then `getmtime`, then — under
`registry_lock` — the cache consultation and possible reload. -/
def load_module (fs : FS) (st : ServerState) (project module_name : String) :
    Except AbortE LoadedModule × ServerState × List FsEvent :=
  let path := api_file_path project module_name
  if fs.isfile path then
    if ensure_in_dir (api_dir project) path then
      let mtime := fs.getmtime path
      let evs := [FsEvent.isfileCheck path, FsEvent.guardCheck (api_dir project) path,
                  FsEvent.readMtime path]
      let key := (project, module_name)
      match alookup st.loaded_modules key with
      | some entry =>
          if entry.mtime == mtime then
            (Except.ok entry.module, st, evs)
          else
            let src := ((fs.info? path).map FileInfo.src).getD ⟨[], none, none⟩
            let mod : LoadedModule :=
              ⟨st.nextId, "dyn_" ++ project ++ "_" ++ module_name ++ "_" ++ toString mtime, src⟩
            (Except.ok mod,
             ⟨aupdate st.loaded_modules key ⟨mod, mtime, path⟩, st.nextId + 1⟩,
             evs ++ [FsEvent.importModule path])
      | none =>
          let src := ((fs.info? path).map FileInfo.src).getD ⟨[], none, none⟩
          let mod : LoadedModule :=
            ⟨st.nextId, "dyn_" ++ project ++ "_" ++ module_name ++ "_" ++ toString mtime, src⟩
          (Except.ok mod,
           ⟨aupdate st.loaded_modules key ⟨mod, mtime, path⟩, st.nextId + 1⟩,
           evs ++ [FsEvent.importModule path])
    else
      (Except.error ⟨403, "Forbidden path"⟩, st,
       [FsEvent.isfileCheck path, FsEvent.guardCheck (api_dir project) path])
  else
    (Except.error
       ⟨404, "API module not found: " ++ project ++ "/api/" ++ module_name ++ ".py"⟩,
     st, [FsEvent.isfileCheck path])

/-- The outcome of one dispatch.  `handlerOk` is `_as_response` applied to a
handler's return value; `jsonError` is the dispatcher-built JSON object with
key `error` (built only by the two `except` branches, via `jsonify`);
`emptyNoContent` is the literal `("", 204)`; `abortE` is a `flask.abort`,
whose body is the framework's default error document, not the dispatcher's
JSON error object. -/
inductive DispatchResult where
  | handlerOk (body : String)
  | jsonError (message : String) (status : Nat)
  | emptyNoContent
  | abortE (status : Nat) (description : String)
deriving Repr, DecidableEq

/-- True exactly for the responses the dispatcher builds as the JSON object
with key `error` (the `jsonify` branches); `abort` responses render the
framework's default error page instead. -/
def DispatchResult.isJsonErrorBody : DispatchResult → Bool
  | .jsonError _ _ => true
  | _ => false

/-- The route function `dynamic_api(project, module_name)` from `app.py`: OPTIONS short-circuit,
module load, verb-named function in preference to `handle`, the
`SUPPORTED_METHODS` allow-list (default `["GET"]`), per-call exception
conversion to a 500 JSON error, and the final 500 abort when the module
defines neither convention. -/
def dynamic_api (fs : FS) (st : ServerState) (project module_name : String)
    (req : Request) : DispatchResult × ServerState × List FsEvent :=
  if req.method == "OPTIONS" then
    (DispatchResult.emptyNoContent, st, [])
  else
    match load_module fs st project module_name with
    | (Except.error e, st1, evs) => (DispatchResult.abortE e.status e.description, st1, evs)
    | (Except.ok mod, st1, evs) =>
      match alookup mod.src.verbs (lowerString req.method) with
      | some func =>
          let evs1 := evs ++ [FsEvent.invokeHandler (lowerString req.method)]
          match func.call req with
          | Except.ok r => (DispatchResult.handlerOk r, st1, evs1)
          | Except.error msg => (DispatchResult.jsonError msg 500, st1, evs1)
      | none =>
        match mod.src.handle? with
        | some h =>
            let methods := mod.src.supported_methods?.getD ["GET"]
            if methods.contains req.method then
              let evs1 := evs ++ [FsEvent.invokeHandler "handle"]
              match h req with
              | Except.ok r => (DispatchResult.handlerOk r, st1, evs1)
              | Except.error msg => (DispatchResult.jsonError msg 500, st1, evs1)
            else
              (DispatchResult.abortE 405 "", st1, evs)
        | none =>
            (DispatchResult.abortE 500
               (project ++ "/api/" ++ module_name ++
                ".py must define verb functions or handle(request)"),
             st1, evs)

/-!
Interleaving model of two request threads racing on one cache key.

`load_module` reads `os.path.getmtime(path)` before entering
`with registry_lock:`; everything that touches `loaded_modules` — the cache
consultation, the reload decision and the installation — happens inside the
lock.  Each thread is therefore two atomic steps: an unlocked timestamp read,
and the locked check/reload/install block (atomic because both threads
acquire the same `registry_lock` and the shared registry is touched nowhere
else).  An external writer may update the file's mtime between any two steps.
-/

/-- Per-thread local state in the race model: the timestamp captured by the
unlocked `getmtime`, and the module identity the thread ends up returning. -/
structure ThreadView where
  readMtime? : Option Nat
  resultId? : Option Nat
deriving Repr, DecidableEq

/-- Shared state of the race model, specialised to one file / one cache key:
the file's current mtime, the registry entry (module identity and stored
mtime), the fresh-identity counter, the number of module imports performed,
and the two threads. -/
structure RaceState where
  fileMtime : Nat
  cacheId? : Option Nat
  cacheMtime? : Option Nat
  nextId : Nat
  importCount : Nat
  t0 : ThreadView
  t1 : ThreadView
deriving Repr, DecidableEq

/-- One atomic step of the race model: a thread's unlocked timestamp read, a
thread's locked check/reload/install block, or an external file touch. -/
inductive RaceAct where
  | readTimestamp (second : Bool)
  | lockedCheckInstall (second : Bool)
  | touchFile (m : Nat)
deriving Repr, DecidableEq

/-- The thread selected by an action. -/
def RaceState.thread (s : RaceState) (second : Bool) : ThreadView :=
  if second then s.t1 else s.t0

/-- Replace the selected thread's local state. -/
def RaceState.setThread (s : RaceState) (second : Bool) (tv : ThreadView) : RaceState :=
  if second then { s with t1 := tv } else { s with t0 := tv }

/-- Execute one step of the race model. -/
def raceStep (s : RaceState) (a : RaceAct) : RaceState :=
  match a with
  | .touchFile m => { s with fileMtime := m }
  | .readTimestamp i =>
      s.setThread i { s.thread i with readMtime? := some s.fileMtime }
  | .lockedCheckInstall i =>
      match (s.thread i).readMtime? with
      | none => s
      | some m =>
        if s.cacheMtime? == some m then
          s.setThread i { s.thread i with resultId? := s.cacheId? }
        else
          let s1 : RaceState :=
            { s with cacheId? := some s.nextId, cacheMtime? := some m,
                     nextId := s.nextId + 1, importCount := s.importCount + 1 }
          s1.setThread i { s.thread i with resultId? := some s.nextId }

/-- Run a schedule of steps. -/
def raceRun (s : RaceState) (acts : List RaceAct) : RaceState :=
  acts.foldl raceStep s

/-- True when some step of the schedule replaces a registry entry whose
stored mtime is `new` by one whose stored mtime is strictly older — an
out-of-order install. -/
def installsOutOfOrder (s : RaceState) : List RaceAct → Bool
  | [] => false
  | a :: rest =>
    let s1 := raceStep s a
    (match s.cacheMtime?, s1.cacheMtime? with
     | some old, some new => decide (new < old)
     | _, _ => false) || installsOutOfOrder s1 rest

/-- Initial race state: file at mtime `m`, empty registry, two idle threads. -/
def raceInit (m : Nat) : RaceState :=
  ⟨m, none, none, 0, 0, ⟨none, none⟩, ⟨none, none⟩⟩

/-- The interleaving refuting atomicity of the whole
read-timestamp → compare → reload → install sequence: thread 0 reads the
timestamp, the file is modified, thread 1 reads, loads and installs the new
version, then thread 0 — still holding the stale timestamp — enters the lock
and installs over it. -/
def raceDemoSchedule : List RaceAct :=
  [RaceAct.readTimestamp false, RaceAct.touchFile 2, RaceAct.readTimestamp true,
   RaceAct.lockedCheckInstall true, RaceAct.lockedCheckInstall false]

/-!  Concrete fixtures used by witnesses and counterexamples.  -/

/-- A GET request. -/
def reqGET : Request := ⟨"GET", ""⟩

/-- A DELETE request. -/
def reqDELETE : Request := ⟨"DELETE", ""⟩

/-- An OPTIONS pre-flight request. -/
def reqOPTIONS : Request := ⟨"OPTIONS", ""⟩

/-- A handler source exposing `handle(request)` with
`SUPPORTED_METHODS = ["GET", "POST"]`. -/
def animalsSrc : ModuleSource :=
  ⟨[], some (fun r => Except.ok ("animals:" ++ r.method)), some ["GET", "POST"]⟩

/-- A handler source exposing only `post(request)`. -/
def postOnlySrc : ModuleSource :=
  ⟨[("post", HandlerFunc.withReq (fun r => Except.ok ("posted:" ++ r.body)))], none, none⟩

/-- A handler source exposing a zero-argument `get()`. -/
def getZeroSrc : ModuleSource :=
  ⟨[("get", HandlerFunc.noArg (Except.ok "gotten"))], none, none⟩

/-- A handler source whose `get(request)` raises. -/
def raisingSrc : ModuleSource :=
  ⟨[("get", HandlerFunc.withReq (fun _ => Except.error "boom"))], none, none⟩

/-- Demo filesystem: project `demo` with handlers `animals`, `onlypost`,
`zero` and `bad`; no `ghost` handler. -/
def fsDemo : FS :=
  ⟨[(["workspace", "demo", "api", "animals.py"], ⟨100, animalsSrc⟩),
    (["workspace", "demo", "api", "onlypost.py"], ⟨100, postOnlySrc⟩),
    (["workspace", "demo", "api", "zero.py"], ⟨100, getZeroSrc⟩),
    (["workspace", "demo", "api", "bad.py"], ⟨100, raisingSrc⟩)]⟩

/-- The empty server state. -/
def stEmpty : ServerState := ⟨[], 0⟩

/-- A filesystem holding a handler file outside the workspace, at absolute
path `/api/evil.py` — exactly where `workspace/../api/evil.py` resolves. -/
def fsEvil : FS :=
  ⟨[(["api", "evil.py"], ⟨7, getZeroSrc⟩)]⟩

/-- An empty filesystem (every file deleted). -/
def fsNone : FS := ⟨[]⟩

/-- A server state whose registry already caches the `demo/animals` handler
(as left behind by a previous successful dispatch). -/
def stWithAnimals : ServerState :=
  ⟨[(("demo", "animals"),
     ⟨⟨0, "dyn_demo_animals_100", animalsSrc⟩, 100,
      ["workspace", "demo", "api", "animals.py"]⟩)], 1⟩

/-- The HTTP status of a `load_module` outcome (`none` when a module was
returned, i.e. no abort happened). -/
def loadStatus : Except AbortE LoadedModule × ServerState × List FsEvent → Option Nat
  | (Except.error e, _, _) => some e.status
  | (Except.ok _, _, _) => none

/-- Recognizes handler-invocation events in a trace. -/
def isInvokeEvent : FsEvent → Bool
  | FsEvent.invokeHandler _ => true
  | _ => false

/-- Two threads dispatching on the same key with no file modification in
between: both unlocked timestamp reads, then the two locked blocks in either
order. -/
def unmodifiedSchedule (order : Bool) : List RaceAct :=
  [RaceAct.readTimestamp false, RaceAct.readTimestamp true,
   RaceAct.lockedCheckInstall order, RaceAct.lockedCheckInstall (!order)]

theorem commonPath_eq_left_iff (a b : PathT) :
    commonPath a b = a ↔ a <+: b := by
  induction a generalizing b with
  | nil =>
    cases b <;> simp [commonPath]
  | cons x as ih =>
    cases b with
    | nil => simp [commonPath]
    | cons y bs =>
      by_cases hxy : x = y
      · subst hxy
        simp [commonPath, ih]
      · simp only [commonPath, if_neg hxy]
        constructor
        · intro h
          exact absurd h.symm (List.cons_ne_nil x as)
        · intro h
          exact absurd (List.cons_prefix_cons.mp h).left hxy

theorem ensure_in_dir_iff (root path : PathT) :
    ensure_in_dir root path = true ↔ normalize root <+: normalize path := by
  unfold ensure_in_dir
  rw [beq_iff_eq]
  exact commonPath_eq_left_iff _ _

theorem alookup_aupdate_self {α β : Type} [BEq α] [LawfulBEq α]
    (l : List (α × β)) (k : α) (v : β) :
    alookup (aupdate l k v) k = some v := by
  induction l with
  | nil => simp [aupdate, alookup]
  | cons kv rest ih =>
    obtain ⟨a, b⟩ := kv
    by_cases h : a == k
    · simp [aupdate, alookup, h]
    · simp only [aupdate, h, Bool.false_eq_true, if_false]
      simp only [alookup, h, Bool.false_eq_true, if_false]
      exact ih

/-- C5: `_ensure_in_dir` accepts exactly when the canonical absolute form of
the candidate lies within (is extended by components from) the canonical
absolute form of the root; containment is component-boundary-aware, so a
candidate resolving to `/a/bc` is rejected for root `/a/b`. -/
theorem path_guard_containment_c5 :
    (∀ root path : PathT,
        ensure_in_dir root path = true ↔ normalize root <+: normalize path) ∧
    ensure_in_dir ["a", "b"] ["a", "bc"] = false :=
  ⟨ensure_in_dir_iff, by decide⟩

/-- C8: an OPTIONS request is answered with the empty 204 response before any
handler selection: the server state is untouched and the event trace is empty
(no module load, no handler invocation). -/
theorem options_preflight_c8 (fs : FS) (st : ServerState)
    (project module_name : String) (req : Request)
    (h : req.method = "OPTIONS") :
    dynamic_api fs st project module_name req
      = (DispatchResult.emptyNoContent, st, []) := by
  simp [dynamic_api, h]

/-- Witness for C8 at a concrete input. -/
theorem options_preflight_c8_witness :
    dynamic_api fsDemo stEmpty "demo" "animals" reqOPTIONS
      = (DispatchResult.emptyNoContent, stEmpty, []) :=
  options_preflight_c8 fsDemo stEmpty "demo" "animals" reqOPTIONS rfl

/-- C10: even when the registry already holds an entry for the key, a
dispatch whose source file no longer exists fails with the 404 abort: the
existence check runs on every call before the cache is consulted, the state
is unchanged, and the only filesystem event is that existence probe (the
cached Handler Unit is not served). -/
theorem deleted_source_404_c10 (fs : FS) (st : ServerState)
    (project module_name : String) (e : CacheEntry)
    (hc : alookup st.loaded_modules (project, module_name) = some e)
    (hf : fs.isfile (api_file_path project module_name) = false) :
    load_module fs st project module_name =
      (Except.error
         ⟨404, "API module not found: " ++ project ++ "/api/" ++ module_name ++ ".py"⟩,
       st, [FsEvent.isfileCheck (api_file_path project module_name)]) := by
  simp [load_module, hf]

/-- Witness for C10: the `demo/animals` entry is cached but the file has been
deleted; the dispatch 404s instead of serving the cached unit. -/
theorem deleted_source_404_c10_witness :
    load_module fsNone stWithAnimals "demo" "animals" =
      (Except.error ⟨404, "API module not found: demo/api/animals.py"⟩,
       stWithAnimals, [FsEvent.isfileCheck (api_file_path "demo" "animals")]) :=
  deleted_source_404_c10 fsNone stWithAnimals "demo" "animals"
    ⟨⟨0, "dyn_demo_animals_100", animalsSrc⟩, 100,
     ["workspace", "demo", "api", "animals.py"]⟩ rfl rfl

/-- C6, counterexample to the response-shape part: a GET for the nonexistent
`demo/ghost` handler yields the 404 abort, whose body is the framework's
default error document — not the dispatcher-built JSON object with key
`error` (the `jsonify` channel, recognized by `isJsonErrorBody`). -/
theorem missing_handler_c6_counterexample :
    (dynamic_api fsDemo stEmpty "demo" "ghost" reqGET).1
        = DispatchResult.abortE 404 "API module not found: demo/api/ghost.py" ∧
    DispatchResult.isJsonErrorBody (dynamic_api fsDemo stEmpty "demo" "ghost" reqGET).1
        = false :=
  ⟨rfl, rfl⟩

/-- C6 as amended: a dispatch whose handler source file does not exist fails
with the 404 abort carrying the not-found message; no module is imported and
no handler code is invoked (the only event is the existence probe, the state
is unchanged), and the response comes from the abort channel, not the
dispatcher's JSON error object. -/
theorem missing_handler_404_c6 (fs : FS) (st : ServerState)
    (project module_name : String) (req : Request)
    (hm : req.method ≠ "OPTIONS")
    (hf : fs.isfile (api_file_path project module_name) = false) :
    dynamic_api fs st project module_name req =
      (DispatchResult.abortE 404
         ("API module not found: " ++ project ++ "/api/" ++ module_name ++ ".py"),
       st, [FsEvent.isfileCheck (api_file_path project module_name)]) ∧
    DispatchResult.isJsonErrorBody (dynamic_api fs st project module_name req).1
      = false := by
  have hb : (req.method == "OPTIONS") = false := by
    exact beq_eq_false_iff_ne.mpr hm
  constructor
  · simp [dynamic_api, hb, load_module, hf]
  · simp [dynamic_api, hb, load_module, hf, DispatchResult.isJsonErrorBody]

/-- Witness for C6 as amended, at the concrete `demo/ghost` input. -/
theorem missing_handler_404_c6_witness :
    dynamic_api fsDemo stEmpty "demo" "ghost" reqGET =
      (DispatchResult.abortE 404 "API module not found: demo/api/ghost.py",
       stEmpty, [FsEvent.isfileCheck (api_file_path "demo" "ghost")]) :=
  (missing_handler_404_c6 fsDemo stEmpty "demo" "ghost" reqGET
    (by decide) (by decide)).1

/-- C2, evaluation at the failing input `project = ".."`: the existence probe
on the traversal-derived path is the first filesystem access (it precedes the
guard check in the trace), the guard then accepts — root and candidate both
derive from the tainted project name — and the module is imported from a path
that resolves outside the workspace; no Forbidden abort occurs. -/
theorem guard_after_probe_c2 :
    (load_module fsEvil stEmpty ".." "evil").2.2 =
      [FsEvent.isfileCheck (api_file_path ".." "evil"),
       FsEvent.guardCheck (api_dir "..") (api_file_path ".." "evil"),
       FsEvent.readMtime (api_file_path ".." "evil"),
       FsEvent.importModule (api_file_path ".." "evil")] ∧
    ensure_in_dir (api_dir "..") (api_file_path ".." "evil") = true ∧
    ¬ (WORKSPACE <+: normalize (api_file_path ".." "evil")) ∧
    loadStatus (load_module fsEvil stEmpty ".." "evil") = none :=
  ⟨rfl, by decide, by decide, rfl⟩

/-- C4: when the loaded module exposes a callable named after the lower-cased
inbound verb, that callable is selected — in preference to `handle`, whatever
`handle?` and `SUPPORTED_METHODS` say — and invoked, its outcome wrapped as
the response (exception converted to the 500 JSON error); the recorded
invocation is the verb-named entry; and a zero-parameter entry is invoked
without the request (its result does not depend on it). -/
theorem verb_entry_selected_c4 (fs : FS) (st : ServerState)
    (project module_name : String) (req : Request) (mod : LoadedModule)
    (st1 : ServerState) (evs : List FsEvent) (func : HandlerFunc)
    (hm : req.method ≠ "OPTIONS")
    (hload : load_module fs st project module_name = (Except.ok mod, st1, evs))
    (hfunc : alookup mod.src.verbs (lowerString req.method) = some func) :
    dynamic_api fs st project module_name req =
      ((match func.call req with
        | Except.ok r => DispatchResult.handlerOk r
        | Except.error msg => DispatchResult.jsonError msg 500),
       st1, evs ++ [FsEvent.invokeHandler (lowerString req.method)]) ∧
    (∀ ret, func = HandlerFunc.noArg ret → ∀ req2 : Request, func.call req2 = ret) := by
  have hb : (req.method == "OPTIONS") = false := beq_eq_false_iff_ne.mpr hm
  constructor
  · simp only [dynamic_api, hb, Bool.false_eq_true, if_false, hload, hfunc]
    cases hc : func.call req <;> simp
  · intro ret hret req2
    subst hret
    rfl

/-- Witness for C4: the zero-argument `get()` of `demo/zero` is selected and
called without the request. -/
theorem verb_entry_selected_c4_witness :
    dynamic_api fsDemo stEmpty "demo" "zero" reqGET =
      (DispatchResult.handlerOk "gotten",
       ⟨[(("demo", "zero"),
          ⟨⟨0, "dyn_demo_zero_100", getZeroSrc⟩, 100, api_file_path "demo" "zero"⟩)], 1⟩,
       [FsEvent.isfileCheck (api_file_path "demo" "zero"),
        FsEvent.guardCheck (api_dir "demo") (api_file_path "demo" "zero"),
        FsEvent.readMtime (api_file_path "demo" "zero"),
        FsEvent.importModule (api_file_path "demo" "zero"),
        FsEvent.invokeHandler "get"]) :=
  (verb_entry_selected_c4 fsDemo stEmpty "demo" "zero" reqGET
    ⟨0, "dyn_demo_zero_100", getZeroSrc⟩
    ⟨[(("demo", "zero"),
       ⟨⟨0, "dyn_demo_zero_100", getZeroSrc⟩, 100, api_file_path "demo" "zero"⟩)], 1⟩
    [FsEvent.isfileCheck (api_file_path "demo" "zero"),
     FsEvent.guardCheck (api_dir "demo") (api_file_path "demo" "zero"),
     FsEvent.readMtime (api_file_path "demo" "zero"),
     FsEvent.importModule (api_file_path "demo" "zero")]
    (HandlerFunc.noArg (Except.ok "gotten"))
    (by decide) rfl rfl).1

/-- C3: when the loaded module exposes no callable named after the inbound
verb: if it exposes `handle`, that is invoked with the request exactly when
the verb is in the `SUPPORTED_METHODS` allow-list (default `["GET"]`), and a
verb outside the allow-list is answered with the 405 abort without invoking
anything; if it exposes neither, the dispatch fails with the 500
must-define-verb-functions-or-handle abort — not a crash. -/
theorem handle_fallback_c3 (fs : FS) (st : ServerState)
    (project module_name : String) (req : Request) (mod : LoadedModule)
    (st1 : ServerState) (evs : List FsEvent)
    (hm : req.method ≠ "OPTIONS")
    (hload : load_module fs st project module_name = (Except.ok mod, st1, evs))
    (hverb : alookup mod.src.verbs (lowerString req.method) = none) :
    (∀ h, mod.src.handle? = some h →
       ((mod.src.supported_methods?.getD ["GET"]).contains req.method = true →
          dynamic_api fs st project module_name req =
            ((match h req with
              | Except.ok r => DispatchResult.handlerOk r
              | Except.error msg => DispatchResult.jsonError msg 500),
             st1, evs ++ [FsEvent.invokeHandler "handle"])) ∧
       ((mod.src.supported_methods?.getD ["GET"]).contains req.method = false →
          dynamic_api fs st project module_name req =
            (DispatchResult.abortE 405 "", st1, evs))) ∧
    (mod.src.handle? = none →
       dynamic_api fs st project module_name req =
         (DispatchResult.abortE 500
            (project ++ "/api/" ++ module_name ++
             ".py must define verb functions or handle(request)"),
          st1, evs)) := by
  have hb : (req.method == "OPTIONS") = false := beq_eq_false_iff_ne.mpr hm
  constructor
  · intro h hh
    constructor
    · intro hin
      simp only [dynamic_api, hb, Bool.false_eq_true, if_false, hload, hverb, hh, hin, if_true]
      cases hc : h req <;> simp
    · intro hout
      have hmem : req.method ∉ mod.src.supported_methods?.getD ["GET"] := by
        simpa using hout
      simp [dynamic_api, hb, hload, hverb, hh, hout, hmem]
  · intro hh
    simp only [dynamic_api, hb, Bool.false_eq_true, if_false, hload, hverb, hh]

/-- Witness for C3: a GET to `demo/onlypost` — which exposes only
`post(request)` — yields the 500 HandlerMisconfigured abort. -/
theorem handle_fallback_c3_witness :
    dynamic_api fsDemo stEmpty "demo" "onlypost" reqGET =
      (DispatchResult.abortE 500
         "demo/api/onlypost.py must define verb functions or handle(request)",
       ⟨[(("demo", "onlypost"),
          ⟨⟨0, "dyn_demo_onlypost_100", postOnlySrc⟩, 100, api_file_path "demo" "onlypost"⟩)], 1⟩,
       [FsEvent.isfileCheck (api_file_path "demo" "onlypost"),
        FsEvent.guardCheck (api_dir "demo") (api_file_path "demo" "onlypost"),
        FsEvent.readMtime (api_file_path "demo" "onlypost"),
        FsEvent.importModule (api_file_path "demo" "onlypost")]) :=
  (handle_fallback_c3 fsDemo stEmpty "demo" "onlypost" reqGET
    ⟨0, "dyn_demo_onlypost_100", postOnlySrc⟩
    ⟨[(("demo", "onlypost"),
       ⟨⟨0, "dyn_demo_onlypost_100", postOnlySrc⟩, 100, api_file_path "demo" "onlypost"⟩)], 1⟩
    [FsEvent.isfileCheck (api_file_path "demo" "onlypost"),
     FsEvent.guardCheck (api_dir "demo") (api_file_path "demo" "onlypost"),
     FsEvent.readMtime (api_file_path "demo" "onlypost"),
     FsEvent.importModule (api_file_path "demo" "onlypost")]
    (by decide) rfl rfl).2 rfl

theorem load_module_no_invoke (fs : FS) (st : ServerState)
    (project module_name : String) :
    ((load_module fs st project module_name).2.2).countP isInvokeEvent = 0 := by
  by_cases hf : fs.isfile (api_file_path project module_name)
  · by_cases hg : ensure_in_dir (api_dir project) (api_file_path project module_name)
    · cases he : alookup st.loaded_modules (project, module_name) with
      | none => simp [load_module, hf, hg, he, isInvokeEvent]
      | some e =>
        by_cases hm : e.mtime == fs.getmtime (api_file_path project module_name)
        · simp [load_module, hf, hg, he, hm, isInvokeEvent]
        · simp [load_module, hf, hg, he, hm, isInvokeEvent]
    · rw [Bool.not_eq_true] at hg
      simp [load_module, hf, hg, isInvokeEvent]
  · simp [load_module, hf, isInvokeEvent]

/-- C7: handler invocation is at-most-once per dispatch (every trace carries
at most one invocation event, so a failing handler is never retried, and the
dispatcher — a total function — does not crash); and an error raised by the
selected entry point, verb-named or `handle`, is caught and converted to the
JSON error body with status 500. -/
theorem handler_error_containment_c7 :
    (∀ (fs : FS) (st : ServerState) (project module_name : String) (req : Request),
       ((dynamic_api fs st project module_name req).2.2).countP isInvokeEvent ≤ 1) ∧
    (∀ (fs : FS) (st : ServerState) (project module_name : String) (req : Request)
       (mod : LoadedModule) (st1 : ServerState) (evs : List FsEvent)
       (func : HandlerFunc) (msg : String),
       req.method ≠ "OPTIONS" →
       load_module fs st project module_name = (Except.ok mod, st1, evs) →
       alookup mod.src.verbs (lowerString req.method) = some func →
       func.call req = Except.error msg →
       dynamic_api fs st project module_name req =
         (DispatchResult.jsonError msg 500, st1,
          evs ++ [FsEvent.invokeHandler (lowerString req.method)])) ∧
    (∀ (fs : FS) (st : ServerState) (project module_name : String) (req : Request)
       (mod : LoadedModule) (st1 : ServerState) (evs : List FsEvent)
       (h : Request → Except String String) (msg : String),
       req.method ≠ "OPTIONS" →
       load_module fs st project module_name = (Except.ok mod, st1, evs) →
       alookup mod.src.verbs (lowerString req.method) = none →
       mod.src.handle? = some h →
       (mod.src.supported_methods?.getD ["GET"]).contains req.method = true →
       h req = Except.error msg →
       dynamic_api fs st project module_name req =
         (DispatchResult.jsonError msg 500, st1,
          evs ++ [FsEvent.invokeHandler "handle"])) := by
  refine ⟨?_, ?_, ?_⟩
  · intro fs st project module_name req
    by_cases hm : req.method == "OPTIONS"
    · simp [dynamic_api, hm]
    · have h0 := load_module_no_invoke fs st project module_name
      rcases hload : load_module fs st project module_name with ⟨res, st1, evs⟩
      rw [hload] at h0
      dsimp only at h0
      cases res with
      | error e => simp [dynamic_api, hm, hload, h0]
      | ok mod =>
        cases hv : alookup mod.src.verbs (lowerString req.method) with
        | some func =>
          cases hc : func.call req <;>
            simp [dynamic_api, hm, hload, hv, hc, List.countP_append, h0, isInvokeEvent]
        | none =>
          cases hh : mod.src.handle? with
          | none => simp [dynamic_api, hm, hload, hv, hh, h0]
          | some h =>
            by_cases hin : (mod.src.supported_methods?.getD ["GET"]).contains req.method
            · have hmem : req.method ∈ mod.src.supported_methods?.getD ["GET"] := by
                simpa using hin
              cases hc : h req <;>
                simp [dynamic_api, hm, hload, hv, hh, hmem, hc, List.countP_append, h0,
                      isInvokeEvent]
            · have hmem : req.method ∉ mod.src.supported_methods?.getD ["GET"] := by
                simpa using hin
              simp [dynamic_api, hm, hload, hv, hh, hmem, h0]
  · intro fs st project module_name req mod st1 evs func msg hm hload hv hc
    have hb : (req.method == "OPTIONS") = false := beq_eq_false_iff_ne.mpr hm
    simp [dynamic_api, hb, hload, hv, hc]
  · intro fs st project module_name req mod st1 evs h msg hm hload hv hh hin hc
    have hb : (req.method == "OPTIONS") = false := beq_eq_false_iff_ne.mpr hm
    have hmem : req.method ∈ mod.src.supported_methods?.getD ["GET"] := by
      simpa using hin
    simp [dynamic_api, hb, hload, hv, hh, hmem, hc]

/-- Witness for C7: the raising `get(request)` of `demo/bad` produces the
500 JSON error body with its message, after exactly one invocation. -/
theorem handler_error_containment_c7_witness :
    dynamic_api fsDemo stEmpty "demo" "bad" reqGET =
      (DispatchResult.jsonError "boom" 500,
       ⟨[(("demo", "bad"),
          ⟨⟨0, "dyn_demo_bad_100", raisingSrc⟩, 100, api_file_path "demo" "bad"⟩)], 1⟩,
       [FsEvent.isfileCheck (api_file_path "demo" "bad"),
        FsEvent.guardCheck (api_dir "demo") (api_file_path "demo" "bad"),
        FsEvent.readMtime (api_file_path "demo" "bad"),
        FsEvent.importModule (api_file_path "demo" "bad"),
        FsEvent.invokeHandler "get"]) :=
  handler_error_containment_c7.2.1 fsDemo stEmpty "demo" "bad" reqGET
    ⟨0, "dyn_demo_bad_100", raisingSrc⟩
    ⟨[(("demo", "bad"),
       ⟨⟨0, "dyn_demo_bad_100", raisingSrc⟩, 100, api_file_path "demo" "bad"⟩)], 1⟩
    [FsEvent.isfileCheck (api_file_path "demo" "bad"),
     FsEvent.guardCheck (api_dir "demo") (api_file_path "demo" "bad"),
     FsEvent.readMtime (api_file_path "demo" "bad"),
     FsEvent.importModule (api_file_path "demo" "bad")]
    (HandlerFunc.withReq (fun _ => Except.error "boom")) "boom"
    (by decide) rfl rfl rfl

/-- C9, counterexample: under the interleaving semantics of `load_module` —
timestamp read unlocked, check/reload/install locked — the schedule in
`raceDemoSchedule` installs an entry stamped `1` over the already-installed
entry stamped `2` while the file is at mtime `2`: the claimed atomicity of
the whole read-timestamp-to-install sequence fails. -/
theorem lock_scope_c9_counterexample :
    installsOutOfOrder (raceInit 1) raceDemoSchedule = true ∧
    (raceRun (raceInit 1) (raceDemoSchedule.take 4)).cacheMtime? = some 2 ∧
    (raceRun (raceInit 1) raceDemoSchedule).cacheMtime? = some 1 ∧
    (raceRun (raceInit 1) raceDemoSchedule).fileMtime = 2 := by
  decide

/-- C9 as amended: the compare-with-cached-timestamp → decide-to-reload →
install-new-entry block runs under the registry lock as one atomic unit, so
two concurrent dispatches that observed the same file timestamp load the
module exactly once between them (the loser of the lock race gets a cache
hit on the same unit) and never install out of order; only the
read-current-timestamp step sits outside the lock. -/
theorem lock_scope_c9 (m : Nat) (order : Bool) :
    (raceRun (raceInit m) (unmodifiedSchedule order)).importCount = 1 ∧
    (raceRun (raceInit m) (unmodifiedSchedule order)).cacheMtime? = some m ∧
    (raceRun (raceInit m) (unmodifiedSchedule order)).t0.resultId? = some 0 ∧
    (raceRun (raceInit m) (unmodifiedSchedule order)).t1.resultId? = some 0 ∧
    installsOutOfOrder (raceInit m) (unmodifiedSchedule order) = false := by
  cases order <;>
    simp [raceRun, raceInit, unmodifiedSchedule, raceStep, installsOutOfOrder,
          RaceState.thread, RaceState.setThread]

theorem alookup_mem {α β : Type} [BEq α] [LawfulBEq α] {l : List (α × β)} {k : α}
    {v : β} (h : alookup l k = some v) : (k, v) ∈ l := by
  induction l with
  | nil => simp [alookup] at h
  | cons kv rest ih =>
    obtain ⟨a, b⟩ := kv
    by_cases hk : (a == k) = true
    · simp only [alookup, hk, if_true, Option.some.injEq] at h
      subst h
      have ha : a = k := eq_of_beq hk
      subst ha
      exact List.mem_cons_self _ _
    · rw [Bool.not_eq_true] at hk
      simp only [alookup, hk, Bool.false_eq_true, if_false] at h
      exact List.mem_cons_of_mem _ (ih h)

theorem load_module_stable (fs : FS) (st : ServerState) (project module_name : String)
    (hf : fs.isfile (api_file_path project module_name) = true)
    (hg : ensure_in_dir (api_dir project) (api_file_path project module_name) = true) :
    load_module fs (load_module fs st project module_name).2.1 project module_name
      = ((load_module fs st project module_name).1,
         (load_module fs st project module_name).2.1,
         [FsEvent.isfileCheck (api_file_path project module_name),
          FsEvent.guardCheck (api_dir project) (api_file_path project module_name),
          FsEvent.readMtime (api_file_path project module_name)]) := by
  cases he : alookup st.loaded_modules (project, module_name) with
  | some e =>
    by_cases hm : (e.mtime == fs.getmtime (api_file_path project module_name)) = true
    · simp [load_module, hf, hg, he, hm]
    · rw [Bool.not_eq_true] at hm
      simp [load_module, hf, hg, he, hm, alookup_aupdate_self]
  | none =>
    simp [load_module, hf, hg, he, alookup_aupdate_self]

/-- C1: on a dispatch whose source file exists, passes the guard and has an
unchanged mtime matching a cache entry, the cached Handler Unit is returned
unchanged with no state change; two consecutive loads with an unchanged
filesystem return reference-identical units (the second is a pure cache hit);
and a load with no matching entry imports a fresh unit — identity distinct
from every previously cached unit, in particular from any previous load under
the same key — and installs it under the key with the current mtime. -/
theorem module_cache_c1 (fs : FS) (st : ServerState) (project module_name : String)
    (hf : fs.isfile (api_file_path project module_name) = true)
    (hg : ensure_in_dir (api_dir project) (api_file_path project module_name) = true)
    (hwf : ∀ kv ∈ st.loaded_modules, kv.2.module.id < st.nextId) :
    (∀ e : CacheEntry, alookup st.loaded_modules (project, module_name) = some e →
       e.mtime = fs.getmtime (api_file_path project module_name) →
       load_module fs st project module_name =
         (Except.ok e.module, st,
          [FsEvent.isfileCheck (api_file_path project module_name),
           FsEvent.guardCheck (api_dir project) (api_file_path project module_name),
           FsEvent.readMtime (api_file_path project module_name)])) ∧
    ((load_module fs (load_module fs st project module_name).2.1 project module_name).1
       = (load_module fs st project module_name).1 ∧
     (load_module fs (load_module fs st project module_name).2.1 project module_name).2.1
       = (load_module fs st project module_name).2.1) ∧
    (∀ e : CacheEntry, alookup st.loaded_modules (project, module_name) = some e →
       e.mtime ≠ fs.getmtime (api_file_path project module_name) →
       ∃ modN : LoadedModule,
         (load_module fs st project module_name).1 = Except.ok modN ∧
         modN.id = st.nextId ∧
         (∀ kv ∈ st.loaded_modules, kv.2.module.id ≠ modN.id) ∧
         alookup (load_module fs st project module_name).2.1.loaded_modules
             (project, module_name)
           = some ⟨modN, fs.getmtime (api_file_path project module_name),
                   api_file_path project module_name⟩) ∧
    (alookup st.loaded_modules (project, module_name) = none →
       ∃ modN : LoadedModule,
         (load_module fs st project module_name).1 = Except.ok modN ∧
         modN.id = st.nextId ∧
         (∀ kv ∈ st.loaded_modules, kv.2.module.id ≠ modN.id) ∧
         alookup (load_module fs st project module_name).2.1.loaded_modules
             (project, module_name)
           = some ⟨modN, fs.getmtime (api_file_path project module_name),
                   api_file_path project module_name⟩) := by
  have hiso : ∀ kv ∈ st.loaded_modules, kv.2.module.id ≠ st.nextId := by
    intro kv hkv
    exact Nat.ne_of_lt (hwf kv hkv)
  refine ⟨?_, ?_, ?_, ?_⟩
  · intro e he hm
    have hmb : (e.mtime == fs.getmtime (api_file_path project module_name)) = true :=
      beq_iff_eq.mpr hm
    simp [load_module, hf, hg, he, hmb]
  · constructor
    · rw [load_module_stable fs st project module_name hf hg]
    · rw [load_module_stable fs st project module_name hf hg]
  · intro e he hne
    have hmb : (e.mtime == fs.getmtime (api_file_path project module_name)) = false := by
      simpa using hne
    simp only [load_module, hf, hg, he, hmb, if_true, Bool.false_eq_true, if_false]
    exact ⟨_, rfl, rfl, hiso, alookup_aupdate_self _ _ _⟩
  · intro he
    simp only [load_module, hf, hg, he, if_true]
    exact ⟨_, rfl, rfl, hiso, alookup_aupdate_self _ _ _⟩

/-- Witness for C1: two consecutive loads of `demo/animals` on an unchanged
filesystem return the same Handler Unit and leave the registry unchanged. -/
theorem module_cache_c1_witness :
    (load_module fsDemo (load_module fsDemo stEmpty "demo" "animals").2.1
        "demo" "animals").1
      = (load_module fsDemo stEmpty "demo" "animals").1 :=
  ((module_cache_c1 fsDemo stEmpty "demo" "animals" (by decide) (by decide)
      (by intro kv hkv; cases hkv)).2.1).1

end Etienne
